import Mathlib

/-!
Verification of the discord-music-bot repository against its specification.

The repository holds two variants of the bot:
* `bot.py` — a global-queue variant (module-level `queue`, `play_next`,
  `is_rate_limited`, and its own slash commands);
* `commands.py` — a per-guild variant built around a `Music` session object
  (queue/current/loop/skip_votes/view/channel fields, observed through the
  handlers in `setup_commands`) and a `MusicControls` button view.

We embed the handlers of both variants as pure functions over explicit state.
The voice client is abstracted to its observable rendering state
(`is_playing` / `is_paused` / neither), and side effects (stopping the
renderer, sending replies) become components of the returned value.
-/

/-- Rendering state of a guild's voice client, as observed by the handlers
through `is_playing()` / `is_paused()`. `stopped` covers "connected but
rendering nothing" (freshly joined, or after the renderer finished). -/
inductive VoiceState
  | playing
  | paused
  | stopped
deriving DecidableEq, Repr

/-- A resolved playable track: the players produced by `YTDLSource.from_url`
and `SpotifySource.from_spotify_url` expose `title` and `url`. -/
structure Track where
  title : String
  url : String
deriving DecidableEq, Repr

/-- A concrete track used by witnesses. -/
def tA : Track := ⟨"a", "urlA"⟩

/-- A second concrete track used by witnesses. -/
def tB : Track := ⟨"b", "urlB"⟩

/-- User-visible replies sent by the handlers, one constructor per distinct
message shape in the source. -/
inductive Reply
  | skipped
  | nothingPlaying
  | noMoreSongs
  | nowPlaying (title : String)
  | addedToQueue (title : String)
  | resolutionError (msg : String)
  | noResults
  | notInVoice
  | volumeSet (percent : Int)
  | volumeRange
  | pausedMsg
  | resumedMsg
  | notPaused
  | loopSet (enabled : Bool)
  | alreadyVoted
  | skipPassed
  | voteProgress (total required : Nat)
  | mustBeInSameChannel
deriving DecidableEq, Repr

/-- Character-list version of `startsWith`, used to embed Python's
substring test `pat in s`. -/
def chStarts : List Char → List Char → Bool
  | [], _ => true
  | _ :: _, [] => false
  | p :: ps, c :: cs => p == c && chStarts ps cs

/-- Does the character list contain `pat` as a contiguous run? -/
def chHas (pat : List Char) : List Char → Bool
  | [] => chStarts pat []
  | c :: rest => chStarts pat (c :: rest) || chHas pat rest

/-- Python's `pat in s` on strings. -/
def strHas (s pat : String) : Bool := chHas pat.data s.data

namespace Commands

/-- The observable fields of the `Music` session object, exactly as the
handlers in `commands.py` read and write them: `music.queue`,
`music.current`, `music.loop`, `music.skip_votes`, `music.view`,
`music.channel`. Views and channels are abstracted to identifiers. -/
structure MusicState where
  queue : List Track
  current : Option Track
  loop : Bool
  skip_votes : Finset Nat
  view : Option Nat
  channel : Option Nat
deriving DecidableEq

/-- A convenient fresh session: empty queue, nothing current, loop off. -/
def m0 : MusicState := ⟨[], none, false, ∅, none, none⟩

/-- Errors produced by the track-resolution part of `play`:
either a raised provider exception or a fruitless YouTube search. -/
inductive ResErr
  | providerError (msg : String)
  | noResults
deriving DecidableEq, Repr

/-- The reply `play` sends for a resolution failure: the generic
"An error occurred" embed for an exception, "No results found." for an
empty search. -/
def errReply : ResErr → Reply
  | .providerError s => .resolutionError s
  | .noResults => .noResults

/-- The resolution block of `play` (commands.py lines 96–116): Spotify URLs
through `SpotifySource.from_spotify_url`, YouTube URLs through
`YTDLSource.from_url`, anything else through a YouTube search whose result
(if any) is fed to `YTDLSource.from_url`. The external resolvers `spot`,
`yt` and the searcher `search` are parameters. -/
def resolveQuery (spot yt : String → Except String Track)
    (search : String → Option String) (query : String) : Except ResErr Track :=
  if strHas query "spotify.com" then (spot query).mapError .providerError
  else if strHas query "youtube.com" || strHas query "youtu.be" then
    (yt query).mapError .providerError
  else
    match search query with
    | some url => (yt url).mapError .providerError
    | none => .error .noResults

/-- The enqueue-or-start tail of `play` (commands.py lines 118–144): if the
voice client is playing or paused, append the resolved player to the queue
and report "added to queue"; otherwise set it current, bind a fresh
`MusicControls` view and report "now playing". The returned `Bool` records
whether `voice_client.play` was invoked. -/
def playResolved (vs : VoiceState) (player : Track) (fresh : Nat)
    (m : MusicState) : MusicState × Bool × Reply :=
  if vs = .playing ∨ vs = .paused then
    ({m with queue := m.queue ++ [player]}, false, .addedToQueue player.title)
  else
    ({m with current := some player, view := some fresh}, true,
      .nowPlaying player.title)

/-- The whole `play` handler (commands.py lines 74–144). `music.channel` is
set first; if the bot is not connected and the caller is not in a voice
channel the command aborts; then the query is resolved and the
enqueue-or-start decision runs. Connection itself is modelled as
succeeding. -/
def play (spot yt : String → Except String Track)
    (search : String → Option String) (vs : VoiceState)
    (userVoice botConnected : Bool) (chan fresh : Nat)
    (m : MusicState) (query : String) : MusicState × Reply :=
  let m1 := {m with channel := some chan}
  if ¬ botConnected ∧ ¬ userVoice then (m1, .notInVoice)
  else
    match resolveQuery spot yt search query with
    | .error e => (m1, errReply e)
    | .ok player =>
      let r := playResolved vs player fresh m1
      (r.1, r.2.2)

/-- The `/skip` slash command (commands.py lines 170–180): if the voice
client is playing, stop it and report success; otherwise report "Nothing is
playing." It consults neither the queue nor the loop flag. -/
def skip (vs : VoiceState) : VoiceState × Reply :=
  if vs = .playing then (.stopped, .skipped) else (vs, .nothingPlaying)

/-- The `/volume` slash command (commands.py lines 217–231). `src` is the
volume of `voice_client.source` when a source exists. The range check runs
first; an in-range request with a live source sets the volume to
`percent / 100`. The music state is returned untouched. -/
def volume (percent : Int) (src : Option ℚ) (m : MusicState) :
    Option ℚ × MusicState × Reply :=
  if 0 ≤ percent ∧ percent ≤ 100 then
    if src.isSome then (some ((percent : ℚ) / 100), m, .volumeSet percent)
    else (src, m, .nothingPlaying)
  else (src, m, .volumeRange)

/-- `required_votes` as computed by `vote_skip` (commands.py line 348):
`max(1, len(voice_client.channel.members) // 2)`, where the member count is
everyone in the bot's channel, the bot included. -/
def required_votes (memberCount : Nat) : Nat := max 1 (memberCount / 2)

/-- The `/vote_skip` handler (commands.py lines 330–357). Rejects when
nothing is playing, rejects a repeat vote, otherwise inserts the voter and
compares the vote count against `required_votes`; on quorum it stops the
renderer (the returned `Bool`) and clears the vote set. -/
def vote_skip (playing : Bool) (memberCount : Nat) (user : Nat)
    (m : MusicState) : MusicState × Bool × Reply :=
  if ¬ playing then (m, false, .nothingPlaying)
  else if user ∈ m.skip_votes then (m, false, .alreadyVoted)
  else
    let votes := insert user m.skip_votes
    let total := votes.card
    let required := required_votes memberCount
    if required ≤ total then ({m with skip_votes := ∅}, true, .skipPassed)
    else ({m with skip_votes := votes}, false, .voteProgress total required)

/-- `MusicControls.interaction_check` (commands.py lines 413–422): the
requester passes iff they are in a voice channel and it is the bot's
channel. -/
def interaction_check (userChan : Option Nat) (botChan : Nat) : Bool :=
  match userChan with
  | some c => c == botChan
  | none => false

/-- Discord's view dispatch: a button callback only runs when
`interaction_check` returns true; otherwise the check's ephemeral rejection
is the whole effect and the state is untouched. -/
def dispatch {α : Type} (userChan : Option Nat) (botChan : Nat)
    (handler : α → α × Reply) (st : α) : α × Reply :=
  if interaction_check userChan botChan then handler st
  else (st, .mustBeInSameChannel)

/-- `MusicControls.pause_button` (commands.py lines 424–430). -/
def pause_button (vs : VoiceState) : VoiceState × Reply :=
  if vs = .playing then (.paused, .pausedMsg) else (vs, .nothingPlaying)

/-- `MusicControls.resume_button` (commands.py lines 432–438). -/
def resume_button (vs : VoiceState) : VoiceState × Reply :=
  if vs = .paused then (.playing, .resumedMsg) else (vs, .notPaused)

/-- `MusicControls.skip_button` (commands.py lines 440–451): while playing,
stop the renderer only if the queue is non-empty or loop is on, otherwise
reject with "No more songs in the queue to skip to." -/
def skip_button (p : VoiceState × MusicState) :
    (VoiceState × MusicState) × Reply :=
  if p.1 = .playing then
    if p.2.queue ≠ [] ∨ p.2.loop = true then ((.stopped, p.2), .skipped)
    else (p, .noMoreSongs)
  else (p, .nothingPlaying)

/-- `MusicControls.loop_button` (commands.py lines 453–457): free toggle. -/
def loop_button (m : MusicState) : MusicState × Reply :=
  ({m with loop := !m.loop}, .loopSet (!m.loop))

/-- The in-memory playlist store: JSON object mapping names to song-URL
lists, in insertion order as Python dicts preserve it. -/
abbrev Playlists := List (String × List String)

/-- Dict lookup `playlists[name]` (as `Option`). -/
def lookupPL (ps : Playlists) (n : String) : Option (List String) :=
  (ps.find? (fun p => p.1 == n)).map (fun p => p.2)

/-- Dict update `playlists[name] = v`: replace in place, or append a new
key at the end as Python does. -/
def setPL (ps : Playlists) (n : String) (v : List String) : Playlists :=
  match ps with
  | [] => [(n, v)]
  | (k, w) :: rest =>
    if k == n then (k, v) :: rest else (k, w) :: setPL rest n v

/-- `/add_to_playlist` (commands.py lines 246–272): load the whole store,
create the entry as a bare list when absent, append the URL, rewrite the
whole store. The invoking user (`creator`) is available to the handler but
never persisted. -/
def add_to_playlist (creator : String) (ps : Playlists)
    (name url : String) : Playlists :=
  let _ := creator
  let songs := (lookupPL ps name).getD []
  setPL ps name (songs ++ [url])

/-- `/list_playlists` (commands.py lines 380–402): one embed field per
playlist showing its name and its song count — nothing else. -/
def list_playlists (ps : Playlists) : List (String × Nat) :=
  ps.map (fun p => (p.1, p.2.length))

end Commands

namespace Bot

/-- `RATE_LIMIT = 5` seconds (bot.py line 102). Time is modelled as `Int`. -/
def RATE_LIMIT : Int := 5

/-- `MAX_REQUESTS = 10` (bot.py line 103). -/
def MAX_REQUESTS : Nat := 10

/-- The pruning step of `is_rate_limited` (bot.py line 118): keep only the
timestamps within the trailing window, `now - timestamp < RATE_LIMIT`. -/
def prune (now : Int) (ts : List Int) : List Int :=
  ts.filter (fun t => now - t < RATE_LIMIT)

/-- `is_rate_limited` (bot.py lines 116–124) on one user's timestamp list:
prune, then either report limited (without recording the attempt) when
`MAX_REQUESTS` or more remain, or record `now` and allow. Returns the
decision and the user's updated timestamp list. -/
def is_rate_limited (now : Int) (ts : List Int) : Bool × List Int :=
  if MAX_REQUESTS ≤ (prune now ts).length then (true, prune now ts)
  else (false, prune now ts ++ [now])

/-- The slash commands registered in bot.py, paired with whether their
handler begins with an `is_rate_limited` check. -/
def slashCommands : List (String × Bool) :=
  [("join", true), ("leave", true), ("play", true), ("skip", true),
   ("pause", true), ("resume", true), ("stop", true), ("lyrics", true),
   ("help", false)]

/-- The module-level `play_next` (bot.py lines 108–114) acting on the global
`queue`: pop index 0 and render it (returning it as the now-playing
announcement), or — with an empty queue — disconnect immediately. Result:
(remaining queue, track now playing, disconnected?). -/
def play_next (q : List Track) : List Track × Option Track × Bool :=
  match q with
  | s :: rest => (rest, some s, false)
  | [] => ([], none, true)

/-- The order in which repeated completion callbacks hand tracks to the
renderer, starting from queue `q`: each `play_next` call emits one track
until the queue is exhausted. -/
def drainOrder : List Track → List Track
  | [] => []
  | s :: rest =>
    match play_next (s :: rest) with
    | (_, some t, _) => t :: drainOrder rest
    | (_, none, _) => []

/-- The `/skip` slash command of the bot.py variant (lines 187–195): stop
whenever playing; silently do nothing otherwise (the handler has no else
branch). -/
def skip (vs : VoiceState) : VoiceState × Option Reply :=
  if vs = .playing then (.stopped, some .skipped) else (vs, none)

end Bot

namespace SpecModel

/-- Modelled from the spec: the `Music` session class itself is not in the
repository sources (only its callers in commands.py are), so its advance
protocol, inactivity timer and teardown are taken from §3–§4 of the
specification. A session owns the FIFO queue, the current slot, the loop
flag, the skip-vote set, at most one control surface, at most one armed
inactivity timer (stored with its delay), and its registry membership. -/
structure Session where
  queue : List Track
  current : Option Track
  loopEnabled : Bool
  skipVotes : Finset Nat
  surface : Option Nat
  timer : Option Nat
  registered : Bool
deriving DecidableEq

/-- Modelled from the spec: (§4.1) the "track ended" transition. Cancel any
timer; with loop on and a current track, re-resolve its origin URL (the
resolver `rr` is modelled as succeeding) keeping the surface and
notification; else pop the queue head into `current` behind a fresh
surface; else go idle — clear `current`, disable and clear the surface, and
arm the inactivity timer with the default delay of 180 time-units. A
torn-down (unregistered) session makes the callback a no-op. -/
def trackEnded (rr : String → Track) (fresh : Nat) (s : Session) : Session :=
  if s.registered = false then s
  else
    match s.loopEnabled, s.current with
    | true, some c => {s with timer := none, current := some (rr c.url)}
    | _, _ =>
      match s.queue with
      | t :: rest =>
        {s with timer := none, current := some t, queue := rest,
                surface := some fresh, skipVotes := ∅}
      | [] => {s with timer := some 180, current := none, surface := none}

/-- Modelled from the spec: (§4.2) the enqueue-or-start decision on a play
request against a registered session — append behind a current track,
otherwise start immediately (cancelling any inactivity timer, binding a
fresh surface). -/
def sessPlay (t : Track) (fresh : Nat) (s : Session) : Session :=
  if s.registered = false then s
  else
    match s.current with
    | some _ => {s with queue := s.queue ++ [t]}
    | none => {s with current := some t, surface := some fresh, timer := none}

/-- Modelled from the spec: (§3 lifecycle, §4.7) explicit stop/teardown —
clear the queue and current slot, disable the surface, cancel the timer,
remove the session from the registry. Idempotent on an already-removed
session. -/
def sessStop (s : Session) : Session :=
  if s.registered = false then s
  else
    {s with queue := [], current := none, surface := none, timer := none,
            registered := false, skipVotes := ∅}

/-- The spec's timer invariant (§3): the inactivity timer is armed iff
nothing is current, the queue is empty, and the session is still
registered. -/
def Inv (s : Session) : Prop :=
  s.timer.isSome = true ↔ (s.current = none ∧ s.queue = [] ∧ s.registered = true)

instance (s : Session) : Decidable (Inv s) := by
  unfold Inv; infer_instance

/-- A concrete registered session used by witnesses: one current track,
empty queue, loop off, no timer. -/
def s0 : Session := ⟨[], some tA, false, ∅, some 1, none, true⟩

end SpecModel

/-!
## Claim theorems
-/

/-- C1 (counterexample): with a track playing, an empty queue and loop off,
the `/skip` slash commands of both variants stop the renderer and report
success — they never consult the queue or the loop flag — whereas the claim
demands every skip entry point reject with "nothing to skip to". The
button, by contrast, rejects in that very state. -/
theorem C1_counterexample :
    Commands.skip .playing = (.stopped, .skipped) ∧
    Bot.skip .playing = (.stopped, some .skipped) ∧
    Commands.skip_button (.playing, Commands.m0) =
      ((.playing, Commands.m0), .noMoreSongs) := by
  decide

/-- C1 (amended): only the control-surface skip button enforces the
queue-or-loop guard — while playing it stops the renderer iff the queue is
non-empty or loop is on, and rejects with "No more songs in the queue to
skip to" otherwise; the `/skip` slash commands stop unconditionally
whenever a track is playing and otherwise report "Nothing is playing"
(commands.py) or do nothing (bot.py). -/
theorem C1_amended (m : Commands.MusicState) (vs : VoiceState) :
    ((Commands.skip_button (.playing, m)).1.1 = .stopped ↔
      (m.queue ≠ [] ∨ m.loop = true)) ∧
    (m.queue = [] → m.loop = false →
      Commands.skip_button (.playing, m) = ((.playing, m), .noMoreSongs)) ∧
    (vs ≠ .playing → Commands.skip vs = (vs, .nothingPlaying)) ∧
    Commands.skip .playing = (.stopped, .skipped) ∧
    Bot.skip .playing = (.stopped, some .skipped) := by
  refine ⟨?_, ?_, ?_, by decide, by decide⟩
  · by_cases h : m.queue ≠ [] ∨ m.loop = true <;>
      simp [Commands.skip_button, h]
  · intro h1 h2
    simp [Commands.skip_button, h1, h2]
  · intro h
    simp [Commands.skip, h]

/-- C1 (witness): the amended guard at a concrete state — playing, empty
queue, loop off — where the button rejects. -/
theorem C1_witness :
    Commands.skip_button (.playing, Commands.m0) =
      ((.playing, Commands.m0), .noMoreSongs) :=
  (C1_amended Commands.m0 .stopped).2.1 rfl rfl

/-- C2 (counterexample): with 4 eligible listeners (5 channel members, bot
included) the claimed quorum is floor(4/2)+1 = 3, yet the second distinct
vote already passes the code's threshold of max(1, 5 // 2) = 2, stops the
renderer and clears the vote set. -/
theorem C2_counterexample :
    Commands.vote_skip true 5 2 {Commands.m0 with skip_votes := {1}} =
      ({Commands.m0 with skip_votes := ∅}, true, .skipPassed) ∧
    Commands.required_votes 5 = 2 ∧ (5 - 1) / 2 + 1 = 3 := by
  decide

/-- C2 (amended): the quorum is max(1, floor(memberCount / 2)) where
memberCount is everyone in the bot's channel including the bot itself
(eligible listeners + 1). With 5 eligible listeners (6 members) the quorum
is 3: the first two distinct votes only report progress, the third distinct
vote stops the renderer and clears the vote set. -/
theorem C2_amended (u1 u2 u3 : Nat) (h12 : u1 ≠ u2) (h13 : u1 ≠ u3)
    (h23 : u2 ≠ u3) :
    Commands.required_votes 6 = 3 ∧
    Commands.vote_skip true 6 u1 Commands.m0 =
      ({Commands.m0 with skip_votes := {u1}}, false, .voteProgress 1 3) ∧
    Commands.vote_skip true 6 u2 {Commands.m0 with skip_votes := {u1}} =
      ({Commands.m0 with skip_votes := {u1, u2}}, false, .voteProgress 2 3) ∧
    Commands.vote_skip true 6 u3 {Commands.m0 with skip_votes := {u1, u2}} =
      ({Commands.m0 with skip_votes := ∅}, true, .skipPassed) := by
  have h21 : u2 ∉ ({u1} : Finset Nat) := by simp [h12.symm]
  have h31 : u3 ∉ ({u1, u2} : Finset Nat) := by simp [h13.symm, h23.symm]
  refine ⟨rfl, ?_, ?_, ?_⟩
  · simp [Commands.vote_skip, Commands.m0, Commands.required_votes]
  · simp only [Commands.vote_skip, Commands.required_votes]
    rw [Finset.card_insert_of_not_mem h21]
    simp [Commands.m0, h12.symm, Finset.pair_comm u2 u1]
  · simp only [Commands.vote_skip, Commands.required_votes]
    rw [Finset.card_insert_of_not_mem h31, Finset.card_pair h12]
    simp [Commands.m0, h13.symm, h23.symm]

/-- C2 (witness): the full 5-listener scenario at voters 1, 2, 3 — the
third vote passes quorum and clears the set. -/
theorem C2_witness :
    Commands.vote_skip true 6 3 {Commands.m0 with skip_votes := {1, 2}} =
      ({Commands.m0 with skip_votes := ∅}, true, .skipPassed) :=
  (C2_amended 1 2 3 (by decide) (by decide) (by decide)).2.2.2

/-- C3: vote skip is idempotent per user — while a track is playing, a
repeat vote from a user already in the skip-vote set is rejected with the
"already voted" error, the music state (in particular the vote set) is
unchanged, and the renderer is not stopped. -/
theorem C3_theorem (memberCount user : Nat) (m : Commands.MusicState)
    (h : user ∈ m.skip_votes) :
    Commands.vote_skip true memberCount user m = (m, false, .alreadyVoted) := by
  simp [Commands.vote_skip, h]

/-- C3 (witness): user 1 votes again with the vote set {1}. -/
theorem C3_witness :
    Commands.vote_skip true 6 1 {Commands.m0 with skip_votes := {1}} =
      ({Commands.m0 with skip_votes := {1}}, false, .alreadyVoted) :=
  C3_theorem 6 1 {Commands.m0 with skip_votes := {1}} (by decide)

/-- Helper: while the voice client is playing or paused, a sequence of play
calls only ever appends, so the queue after the sequence is the original
queue followed by the new tracks in call order. -/
theorem foldl_play_queue (vs : VoiceState) (fresh : Nat)
    (h : vs = .playing ∨ vs = .paused) (ts : List Track) :
    ∀ m : Commands.MusicState,
      (List.foldl (fun acc s => (Commands.playResolved vs s fresh acc).1) m
        ts).queue = m.queue ++ ts := by
  induction ts with
  | nil => intro m; simp
  | cons t rest ih =>
    intro m
    have hstep : (Commands.playResolved vs t fresh m).1.queue = m.queue ++ [t] := by
      simp [Commands.playResolved, h]
    simp only [List.foldl_cons]
    rw [ih, hstep, List.append_assoc]
    rfl

/-- Helper: repeated completion callbacks hand the queued tracks to the
renderer in exactly their insertion order. -/
theorem drainOrder_eq (ts : List Track) : Bot.drainOrder ts = ts := by
  induction ts with
  | nil => rfl
  | cons t rest ih => simp [Bot.drainOrder, Bot.play_next, ih]

/-- C4: while a track is current (playing or paused), each play call
appends exactly one resolved track at the tail of the queue and reports
"added to queue" (so a sequence of such calls grows the queue by its length,
in call order); when nothing is current the track is set as current behind
a fresh view with a "now playing" notification and rendering starts; and
the advance-on-track-end pops the head of the queue, so tracks drain in
strict FIFO insertion order. -/
theorem C4_theorem (vs : VoiceState) (fresh : Nat) (m : Commands.MusicState)
    (ts : List Track) (t : Track) :
    (vs = .playing ∨ vs = .paused →
      Commands.playResolved vs t fresh m =
        ({m with queue := m.queue ++ [t]}, false, .addedToQueue t.title) ∧
      (List.foldl (fun acc s => (Commands.playResolved vs s fresh acc).1) m
        ts).queue = m.queue ++ ts) ∧
    Commands.playResolved .stopped t fresh m =
      ({m with current := some t, view := some fresh}, true,
        .nowPlaying t.title) ∧
    Bot.play_next (t :: ts) = (ts, some t, false) ∧
    Bot.drainOrder ts = ts := by
  refine ⟨fun h => ⟨?_, foldl_play_queue vs fresh h ts m⟩, ?_, rfl,
    drainOrder_eq ts⟩
  · simp [Commands.playResolved, h]
  · simp [Commands.playResolved]

/-- C4 (witness): two plays while playing append both tracks in order onto
the empty queue. -/
theorem C4_witness :
    (List.foldl (fun acc s => (Commands.playResolved .playing s 0 acc).1)
      Commands.m0 [tA, tB]).queue = Commands.m0.queue ++ [tA, tB] :=
  ((C4_theorem .playing 0 Commands.m0 [tA, tB] tA).1 (Or.inl rfl)).2

/-- C5: spec-modelled session advance. When "track ended" fires with loop
disabled and an empty queue on a registered session, the session clears the
current track, disables and clears the control surface, and arms the
inactivity timer with the default delay of 180 time-units while staying
registered (no immediate disconnect); and the invariant "the inactivity
timer is armed iff current is empty, the queue is empty and the session is
still registered" is preserved by every modelled operation (track ended,
play, stop). -/
theorem C5_theorem (rr : String → Track) (fresh : Nat) (t : Track)
    (s : SpecModel.Session) :
    (s.registered = true → s.loopEnabled = false → s.queue = [] →
      SpecModel.trackEnded rr fresh s =
        {s with current := none, surface := none, timer := some 180} ∧
      (SpecModel.trackEnded rr fresh s).registered = true) ∧
    (SpecModel.Inv s →
      SpecModel.Inv (SpecModel.trackEnded rr fresh s) ∧
      SpecModel.Inv (SpecModel.sessPlay t fresh s) ∧
      SpecModel.Inv (SpecModel.sessStop s)) := by
  obtain ⟨q, cur, le, sv, sur, tm, reg⟩ := s
  constructor
  · intro hreg hloop hq
    simp only at hreg hloop hq
    subst hreg hloop hq
    constructor
    · simp [SpecModel.trackEnded]
    · simp [SpecModel.trackEnded]
  · intro hInv
    cases reg <;> cases le <;> cases cur <;> cases q <;> cases tm <;>
      simp_all [SpecModel.Inv, SpecModel.trackEnded, SpecModel.sessPlay,
        SpecModel.sessStop]

/-- C5 (witness): the idle transition and the invariant at a concrete
registered session holding one current track over an empty queue. -/
theorem C5_witness :
    SpecModel.trackEnded (fun u => ⟨"a", u⟩) 0 SpecModel.s0 =
      {SpecModel.s0 with current := none, surface := none, timer := some 180} ∧
    SpecModel.Inv (SpecModel.sessStop SpecModel.s0) :=
  ⟨((C5_theorem (fun u => ⟨"a", u⟩) 0 tA SpecModel.s0).1 rfl rfl rfl).1,
   ((C5_theorem (fun u => ⟨"a", u⟩) 0 tA SpecModel.s0).2 (by decide)).2.2⟩

/-- C6 (counterexample): an out-of-range volume request (150) while a
source is playing is rejected with the range error and leaves the volume
and state untouched — it is not clamped to the configured maximum. -/
theorem C6_counterexample :
    Commands.volume 150 (some (1 / 2)) Commands.m0 =
      (some (1 / 2), Commands.m0, .volumeRange) ∧ (150 : Int) > 100 := by
  constructor
  · norm_num [Commands.volume]
  · norm_num

/-- C6 (amended): the volume command never alters the music state (in
particular the queue); an out-of-range request is rejected with an error
and leaves the volume unchanged (not clamped); an in-range request with no
live source is rejected with "Nothing is playing" and no change; an
in-range request with a live source sets the source volume to
percent / 100. -/
theorem C6_amended (percent : Int) (src : Option ℚ)
    (m : Commands.MusicState) :
    (Commands.volume percent src m).2.1 = m ∧
    (¬ (0 ≤ percent ∧ percent ≤ 100) →
      Commands.volume percent src m = (src, m, .volumeRange)) ∧
    (0 ≤ percent → percent ≤ 100 → src = none →
      Commands.volume percent src m = (none, m, .nothingPlaying)) ∧
    (0 ≤ percent → percent ≤ 100 → ∀ q : ℚ,
      Commands.volume percent (some q) m =
        (some ((percent : ℚ) / 100), m, .volumeSet percent)) := by
  refine ⟨?_, ?_, ?_, ?_⟩
  · by_cases h : 0 ≤ percent ∧ percent ≤ 100
    · cases src <;> simp [Commands.volume, h]
    · simp [Commands.volume, h]
  · intro h
    simp [Commands.volume, h]
  · intro h1 h2 h3
    subst h3
    simp [Commands.volume, h1, h2]
  · intro h1 h2 q
    simp [Commands.volume, h1, h2]

/-- C6 (witness): an in-range request (50) with a live source sets the
volume to one half. -/
theorem C6_witness :
    Commands.volume 50 (some 1) Commands.m0 =
      (some ((50 : ℚ) / 100), Commands.m0, .volumeSet 50) :=
  (C6_amended 50 (some 1) Commands.m0).2.2.2 (by norm_num) (by norm_num) 1

/-- C7: when track resolution fails (provider exception or empty search),
`play` reports the error and aborts: the queue, current track, loop flag
and view are exactly as before the call (only `music.channel`, assigned
before resolution, is updated), and no enqueue or playback start happens. -/
theorem C7_theorem (spot yt : String → Except String Track)
    (search : String → Option String) (vs : VoiceState)
    (userVoice botConnected : Bool) (chan fresh : Nat)
    (m : Commands.MusicState) (query : String) (e : Commands.ResErr)
    (hconn : botConnected = true ∨ userVoice = true)
    (hres : Commands.resolveQuery spot yt search query = .error e) :
    Commands.play spot yt search vs userVoice botConnected chan fresh m
        query = ({m with channel := some chan}, Commands.errReply e) ∧
    (Commands.play spot yt search vs userVoice botConnected chan fresh m
        query).1.queue = m.queue ∧
    (Commands.play spot yt search vs userVoice botConnected chan fresh m
        query).1.current = m.current ∧
    (Commands.play spot yt search vs userVoice botConnected chan fresh m
        query).1.loop = m.loop ∧
    (Commands.play spot yt search vs userVoice botConnected chan fresh m
        query).1.view = m.view := by
  have hmain : Commands.play spot yt search vs userVoice botConnected chan
      fresh m query = ({m with channel := some chan}, Commands.errReply e) := by
    rcases hconn with h | h <;> subst h <;> simp [Commands.play, hres]
  refine ⟨hmain, ?_, ?_, ?_, ?_⟩ <;> rw [hmain]

/-- C7 (witness): a Spotify lookup failure aborts the play call and leaves
the fresh session untouched apart from the notification channel. -/
theorem C7_witness :
    Commands.play (fun _ => .error "lookup failed") (fun _ => .error "e")
      (fun _ => none) .stopped true true 7 0 Commands.m0
      "https://open.spotify.com/track/x" =
      ({Commands.m0 with channel := some 7},
        Commands.errReply (.providerError "lookup failed")) :=
  (C7_theorem (fun _ => .error "lookup failed") (fun _ => .error "e")
    (fun _ => none) .stopped true true 7 0 Commands.m0
    "https://open.spotify.com/track/x" (.providerError "lookup failed")
    (Or.inl rfl) rfl).1

/-- C8: control-surface authorization — for every button of the view
(pause, resume, skip, loop), a requester who is not connected to the bot's
voice channel fails `interaction_check`, the interaction is answered with
the ephemeral same-channel notice, and the state is returned unchanged. -/
theorem C8_theorem (userChan : Option Nat) (botChan : Nat)
    (h : userChan ≠ some botChan) :
    Commands.interaction_check userChan botChan = false ∧
    ∀ (vs : VoiceState) (m : Commands.MusicState),
      Commands.dispatch userChan botChan Commands.pause_button vs =
        (vs, .mustBeInSameChannel) ∧
      Commands.dispatch userChan botChan Commands.resume_button vs =
        (vs, .mustBeInSameChannel) ∧
      Commands.dispatch userChan botChan Commands.skip_button (vs, m) =
        ((vs, m), .mustBeInSameChannel) ∧
      Commands.dispatch userChan botChan Commands.loop_button m =
        (m, .mustBeInSameChannel) := by
  have hc : Commands.interaction_check userChan botChan = false := by
    cases userChan with
    | none => rfl
    | some c =>
      simp only [Commands.interaction_check, beq_eq_false_iff_ne, ne_eq]
      intro hcb
      exact h (by rw [hcb])
  refine ⟨hc, fun vs m => ?_⟩
  simp [Commands.dispatch, hc]

/-- C8 (witness): a requester in a different channel (1) than the bot (0)
is rejected by the skip button with no state change. -/
theorem C8_witness :
    Commands.dispatch (some 1) 0 Commands.skip_button
      (.playing, Commands.m0) =
      ((.playing, Commands.m0), .mustBeInSameChannel) :=
  ((C8_theorem (some 1) 0 (by decide)).2 .playing Commands.m0).2.2.1

/-- C9 (counterexample): the persisted playlist store keeps no creator
metadata at all — the add handler ignores the invoking user, so the stored
value and the `list_playlists` output after adds by two different creators
are identical, and the value stored under "p1" is a bare list of URL
strings. The claim's record { creator, songs } and the "together with
creator metadata" listing are therefore not what the code persists. -/
theorem C9_counterexample :
    Commands.add_to_playlist "alice" [] "p1" "u1" =
      Commands.add_to_playlist "bob" [] "p1" "u1" ∧
    Commands.add_to_playlist "alice" [] "p1" "u1" = [("p1", ["u1"])] ∧
    Commands.list_playlists (Commands.add_to_playlist "alice" [] "p1" "u1") =
      [("p1", 1)] := by
  exact ⟨rfl, rfl, rfl⟩

/-- C9 (amended): the persisted playlist store maps each playlist name to
an ordered list of URL strings with no creator attribution, and is
rewritten in full on every mutation; the add handler's result is
independent of the invoking user, and after adding three songs to playlist
"p1" the reloaded store holds exactly those three URLs in insertion order,
with `list_playlists` reporting "p1" with 3 songs and nothing else. -/
theorem C9_amended (c1 c2 c3 : String) (u1 u2 u3 : String)
    (ps : Commands.Playlists) (n u : String) :
    Commands.add_to_playlist c1 ps n u = Commands.add_to_playlist c2 ps n u ∧
    Commands.lookupPL
      (Commands.add_to_playlist c3
        (Commands.add_to_playlist c2
          (Commands.add_to_playlist c1 [] "p1" u1) "p1" u2) "p1" u3) "p1" =
      some [u1, u2, u3] ∧
    Commands.list_playlists
      (Commands.add_to_playlist c3
        (Commands.add_to_playlist c2
          (Commands.add_to_playlist c1 [] "p1" u1) "p1" u2) "p1" u3) =
      [("p1", 3)] := by
  refine ⟨rfl, ?_, ?_⟩ <;>
    simp [Commands.add_to_playlist, Commands.lookupPL, Commands.setPL,
      Commands.list_playlists]

/-- C10 (counterexample): not every slash command in the bot.py variant is
rate-limited — the `/help` handler never calls `is_rate_limited`. -/
theorem C10_counterexample :
    ¬ (∀ c ∈ Bot.slashCommands, c.2 = true) := by
  decide

/-- C10 (amended): every slash command in the bot.py variant except `/help`
is rate-limited per user; `is_rate_limited` first discards the user's
timestamps outside the trailing 5-second window (keeping exactly those with
now - t < RATE_LIMIT), then returns true — without recording the attempt —
iff the user still has MAX_REQUESTS (10) or more timestamps, and otherwise
records the current time at the tail and returns false. -/
theorem C10_amended :
    (∀ c ∈ Bot.slashCommands, c.1 ≠ "help" → c.2 = true) ∧
    (∀ (now : Int) (ts : List Int),
      ((Bot.is_rate_limited now ts).1 = true ↔
        Bot.MAX_REQUESTS ≤ (Bot.prune now ts).length) ∧
      ((Bot.is_rate_limited now ts).1 = true →
        (Bot.is_rate_limited now ts).2 = Bot.prune now ts) ∧
      ((Bot.is_rate_limited now ts).1 = false →
        (Bot.is_rate_limited now ts).2 = Bot.prune now ts ++ [now]) ∧
      (∀ t : Int, t ∈ Bot.prune now ts ↔ t ∈ ts ∧ now - t < Bot.RATE_LIMIT)) := by
  constructor
  · decide
  · intro now ts
    refine ⟨?_, ?_, ?_, ?_⟩
    · by_cases h : Bot.MAX_REQUESTS ≤ (Bot.prune now ts).length <;>
        simp [Bot.is_rate_limited, h]
    · by_cases h : Bot.MAX_REQUESTS ≤ (Bot.prune now ts).length <;>
        simp [Bot.is_rate_limited, h]
    · by_cases h : Bot.MAX_REQUESTS ≤ (Bot.prune now ts).length <;>
        simp [Bot.is_rate_limited, h]
    · intro t
      simp [Bot.prune, List.mem_filter]

/-- C10 (witness): a user with ten fresh timestamps is limited and the
attempt is not recorded; the window-pruning rule at a concrete timestamp. -/
theorem C10_witness :
    ((Bot.is_rate_limited 4 [0, 0, 0, 0, 0, 0, 0, 0, 0, 0]).1 = true) ∧
    ((0 : Int) ∈ Bot.prune 4 [0, 0, 0, 0, 0, 0, 0, 0, 0, 0] ↔
      (0 : Int) ∈ [(0 : Int), 0, 0, 0, 0, 0, 0, 0, 0, 0] ∧
        (4 : Int) - 0 < Bot.RATE_LIMIT) :=
  ⟨((C10_amended.2 4 [0, 0, 0, 0, 0, 0, 0, 0, 0, 0]).1).mpr (by decide),
   (C10_amended.2 4 [0, 0, 0, 0, 0, 0, 0, 0, 0, 0]).2.2.2 0⟩
